import Mathlib

/-!
Verification of the stl-to-nec repository against its specification.

The development shallowly embeds the C++ sources:
  * `src/include/geometry_utils.h` / `src/src/geometry_utils.cpp`
  * `src/src/antenna_detector.cpp`
  * `src/src/frequency_calculator.cpp`
  * `src/src/ground_modeler.cpp`
  * `src/src/stl_parser.cpp`
  * `src/src/memory_manager.cpp`

`double` coordinate arithmetic (sums, differences, products, min, max,
comparisons) is embedded as exact rational arithmetic; square roots
(distances, path lengths, radii) live in `ℝ` via `Real.sqrt`.
-/

namespace StlToNec

/-! ### Geometric primitives (geometry_utils.h) -/

/-- `Point3D` from geometry_utils.h: three real coordinates in meters. -/
structure Point3D where
  x : ℚ
  y : ℚ
  z : ℚ
deriving DecidableEq, Repr

/-- The default-constructed `Point3D()`: all coordinates zero. -/
def Point3D.origin : Point3D := ⟨0, 0, 0⟩

/-- `Point3D::operator+`. -/
def Point3D.add (p q : Point3D) : Point3D := ⟨p.x + q.x, p.y + q.y, p.z + q.z⟩

/-- `Point3D::operator*(double scalar)`. -/
def Point3D.smul (p : Point3D) (s : ℚ) : Point3D := ⟨p.x * s, p.y * s, p.z * s⟩

/-- The squared distance `dx*dx + dy*dy + dz*dz` from `Point3D::distance`. -/
def Point3D.distSq (p q : Point3D) : ℚ :=
  (p.x - q.x) * (p.x - q.x) + (p.y - q.y) * (p.y - q.y) + (p.z - q.z) * (p.z - q.z)

/-- `Point3D::distance`: `sqrt(dx*dx + dy*dy + dz*dz)`. -/
noncomputable def Point3D.distance (p q : Point3D) : ℝ :=
  Real.sqrt ((p.distSq q : ℚ) : ℝ)

/-- `Triangle` from geometry_utils.h, as its three vertices.  The derived
unit normal stored by the C++ struct involves a square root and is read by
none of the code under verification, so it is not carried in the model. -/
structure Triangle where
  v0 : Point3D
  v1 : Point3D
  v2 : Point3D
deriving DecidableEq, Repr

/-- The vertex array of a triangle, in declaration order. -/
def Triangle.vertices (t : Triangle) : List Point3D := [t.v0, t.v1, t.v2]

/-- `Triangle::center()`: the centroid. -/
def Triangle.center (t : Triangle) : Point3D :=
  ⟨(t.v0.x + t.v1.x + t.v2.x) / 3,
   (t.v0.y + t.v1.y + t.v2.y) / 3,
   (t.v0.z + t.v1.z + t.v2.z) / 3⟩

/-- `BoundingBox` from geometry_utils.h. -/
structure BoundingBox where
  min : Point3D
  max : Point3D
deriving DecidableEq, Repr

/-- The default-constructed `BoundingBox`: both corners at the origin. -/
def BoundingBox.zero : BoundingBox := ⟨Point3D.origin, Point3D.origin⟩

/-- `BoundingBox::expand`: an all-zero box is treated as uninitialized and
reset to the incoming point; otherwise the corners are widened
componentwise. -/
def BoundingBox.expand (b : BoundingBox) (p : Point3D) : BoundingBox :=
  if b.min = Point3D.origin ∧ b.max = Point3D.origin then
    ⟨p, p⟩
  else
    ⟨⟨Min.min b.min.x p.x, Min.min b.min.y p.y, Min.min b.min.z p.z⟩,
     ⟨Max.max b.max.x p.x, Max.max b.max.y p.y, Max.max b.max.z p.z⟩⟩

/-- `BoundingBox::size()`: componentwise extent `max - min`. -/
def BoundingBox.size (b : BoundingBox) : Point3D :=
  ⟨b.max.x - b.min.x, b.max.y - b.min.y, b.max.z - b.min.z⟩

/-- All vertices of a triangle list, in the iteration order of
`GeometryUtils::calculateBoundingBox` (per triangle, vertices in order). -/
def trianglePoints (ts : List Triangle) : List Point3D :=
  (ts.map Triangle.vertices).flatten

namespace GeometryUtils

/-- `GeometryUtils::calculateBoundingBox`: expand a default box by every
vertex of every triangle. -/
def calculateBoundingBox (ts : List Triangle) : BoundingBox :=
  (trianglePoints ts).foldl BoundingBox.expand BoundingBox.zero

end GeometryUtils

/-- Componentwise order on points, the order used by the spec's
`min ≤ max` invariant. -/
def pointLE (p q : Point3D) : Prop := p.x ≤ q.x ∧ p.y ≤ q.y ∧ p.z ≤ q.z

instance (p q : Point3D) : Decidable (pointLE p q) := by
  unfold pointLE; infer_instance

/-- A point lies inside a box: `min ≤ p ≤ max` componentwise. -/
def pointInBox (b : BoundingBox) (p : Point3D) : Prop :=
  pointLE b.min p ∧ pointLE p b.max

instance (b : BoundingBox) (p : Point3D) : Decidable (pointInBox b p) := by
  unfold pointInBox; infer_instance

/-! #### Bounding-box lemmas -/

theorem expand_pointLE {b : BoundingBox} (h : pointLE b.min b.max) (p : Point3D) :
    pointLE (b.expand p).min (b.expand p).max := by
  unfold BoundingBox.expand
  split
  · exact ⟨le_refl _, le_refl _, le_refl _⟩
  · exact ⟨le_trans (min_le_left _ _) (le_trans h.1 (le_max_left _ _)),
      le_trans (min_le_left _ _) (le_trans h.2.1 (le_max_left _ _)),
      le_trans (min_le_left _ _) (le_trans h.2.2 (le_max_left _ _))⟩

theorem foldl_expand_pointLE (ps : List Point3D) :
    ∀ b : BoundingBox, pointLE b.min b.max →
      pointLE ((ps.foldl BoundingBox.expand b).min) ((ps.foldl BoundingBox.expand b).max) := by
  induction ps with
  | nil => intro b h; simpa using h
  | cons p ps ih =>
    intro b h
    simpa using ih (b.expand p) (expand_pointLE h p)

/-- Expanding a box that is not the all-zero sentinel never takes the
reset branch, so the box only grows. -/
theorem expand_mono {b : BoundingBox} (hnz : ¬(b.min = Point3D.origin ∧ b.max = Point3D.origin))
    (p q : Point3D) (hq : pointInBox b q) : pointInBox (b.expand p) q := by
  unfold BoundingBox.expand
  rw [if_neg hnz]
  exact ⟨⟨le_trans (min_le_left _ _) hq.1.1,
      le_trans (min_le_left _ _) hq.1.2.1,
      le_trans (min_le_left _ _) hq.1.2.2⟩,
    ⟨le_trans hq.2.1 (le_max_left _ _),
      le_trans hq.2.2.1 (le_max_left _ _),
      le_trans hq.2.2.2 (le_max_left _ _)⟩⟩

/-- Expanding a non-sentinel box by `p` contains `p`. -/
theorem expand_mem {b : BoundingBox} (hnz : ¬(b.min = Point3D.origin ∧ b.max = Point3D.origin))
    (p : Point3D) : pointInBox (b.expand p) p := by
  unfold BoundingBox.expand
  rw [if_neg hnz]
  exact ⟨⟨min_le_right _ _, min_le_right _ _, min_le_right _ _⟩,
    ⟨le_max_right _ _, le_max_right _ _, le_max_right _ _⟩⟩

/-- Under the `min ≤ max` invariant, expanding a non-sentinel box never
produces the all-zero sentinel again. -/
theorem expand_ne_zero {b : BoundingBox} (hle : pointLE b.min b.max)
    (hnz : ¬(b.min = Point3D.origin ∧ b.max = Point3D.origin)) (p : Point3D) :
    ¬(((b.expand p).min = Point3D.origin) ∧ ((b.expand p).max = Point3D.origin)) := by
  unfold BoundingBox.expand
  rw [if_neg hnz]
  rintro ⟨hmin, hmax⟩
  apply hnz
  have hx1 : Min.min b.min.x p.x = 0 := congrArg Point3D.x hmin
  have hy1 : Min.min b.min.y p.y = 0 := congrArg Point3D.y hmin
  have hz1 : Min.min b.min.z p.z = 0 := congrArg Point3D.z hmin
  have hx2 : Max.max b.max.x p.x = 0 := congrArg Point3D.x hmax
  have hy2 : Max.max b.max.y p.y = 0 := congrArg Point3D.y hmax
  have hz2 : Max.max b.max.z p.z = 0 := congrArg Point3D.z hmax
  have hminx : (0:ℚ) ≤ b.min.x := hx1 ▸ min_le_left _ _
  have hminy : (0:ℚ) ≤ b.min.y := hy1 ▸ min_le_left _ _
  have hminz : (0:ℚ) ≤ b.min.z := hz1 ▸ min_le_left _ _
  have hmaxx : b.max.x ≤ 0 := hx2 ▸ le_max_left _ _
  have hmaxy : b.max.y ≤ 0 := hy2 ▸ le_max_left _ _
  have hmaxz : b.max.z ≤ 0 := hz2 ▸ le_max_left _ _
  constructor
  · have ex : b.min.x = 0 := le_antisymm (le_trans hle.1 hmaxx) hminx
    have ey : b.min.y = 0 := le_antisymm (le_trans hle.2.1 hmaxy) hminy
    have ez : b.min.z = 0 := le_antisymm (le_trans hle.2.2 hmaxz) hminz
    calc b.min = ⟨b.min.x, b.min.y, b.min.z⟩ := rfl
      _ = Point3D.origin := by rw [ex, ey, ez]; rfl
  · have ex : b.max.x = 0 := le_antisymm hmaxx (le_trans hminx hle.1)
    have ey : b.max.y = 0 := le_antisymm hmaxy (le_trans hminy hle.2.1)
    have ez : b.max.z = 0 := le_antisymm hmaxz (le_trans hminz hle.2.2)
    calc b.max = ⟨b.max.x, b.max.y, b.max.z⟩ := rfl
      _ = Point3D.origin := by rw [ex, ey, ez]; rfl

/-- Folding `expand` over further points keeps every point already inside
a non-sentinel box inside, and brings every folded point inside. -/
theorem foldl_expand_keeps (ps : List Point3D) :
    ∀ b : BoundingBox, pointLE b.min b.max →
      ¬(b.min = Point3D.origin ∧ b.max = Point3D.origin) →
      (∀ q, pointInBox b q → pointInBox (ps.foldl BoundingBox.expand b) q) ∧
      (∀ q ∈ ps, pointInBox (ps.foldl BoundingBox.expand b) q) := by
  induction ps with
  | nil => intro b _ _; exact ⟨fun q hq => by simpa using hq, by simp⟩
  | cons p ps ih =>
    intro b hle hnz
    have hle' := expand_pointLE hle p
    have hnz' := expand_ne_zero hle hnz p
    obtain ⟨keep, absorb⟩ := ih (b.expand p) hle' hnz'
    constructor
    · intro q hq
      simpa using keep q (expand_mono hnz p q hq)
    · intro q hq
      rcases List.mem_cons.mp hq with h | h
      · subst h; simpa using keep q (expand_mem hnz q)
      · simpa using absorb q h

/-- A triangle whose first vertex is the origin and whose later vertices
are far away: the zero-box sentinel discards the origin. -/
def originFirstTriangle : Triangle := ⟨⟨0, 0, 0⟩, ⟨5, 5, 5⟩, ⟨6, 5, 5⟩⟩

/-- C4 counterexample: for the triangle sequence
`[((0,0,0), (5,5,5), (6,5,5))]` the vertex `(0,0,0)` is a vertex of the
mesh, yet it does not lie inside the computed bounding box: after
expanding by the origin the box is still the all-zero sentinel, and the
next vertex resets it to `((5,5,5), (5,5,5))`. -/
theorem boundingBox_misses_leading_origin :
    Point3D.origin ∈ trianglePoints [originFirstTriangle] ∧
      ¬ pointInBox (GeometryUtils.calculateBoundingBox [originFirstTriangle]) Point3D.origin := by
  decide

/-- C4 amended: the computed bounding box always satisfies
`min ≤ max` componentwise, and every vertex of every triangle lies inside
it provided the first vertex processed is not exactly the origin
`(0, 0, 0)`.  (The original claim also asserted containment when a leading
vertex is the origin; `boundingBox_misses_leading_origin` shows that case
fails because the all-zero box doubles as the "uninitialized" sentinel in
`BoundingBox::expand`.) -/
theorem boundingBox_invariant_amended :
    (∀ ts : List Triangle,
      pointLE (GeometryUtils.calculateBoundingBox ts).min
        (GeometryUtils.calculateBoundingBox ts).max) ∧
    (∀ (ts : List Triangle) (p : Point3D) (rest : List Point3D),
      trianglePoints ts = p :: rest → p ≠ Point3D.origin →
      ∀ q ∈ trianglePoints ts, pointInBox (GeometryUtils.calculateBoundingBox ts) q) := by
  constructor
  · intro ts
    exact foldl_expand_pointLE (trianglePoints ts) BoundingBox.zero
      ⟨le_refl _, le_refl _, le_refl _⟩
  · intro ts p rest hpts hp q hq
    unfold GeometryUtils.calculateBoundingBox
    rw [hpts] at hq ⊢
    have hstep : BoundingBox.zero.expand p = ⟨p, p⟩ := by
      unfold BoundingBox.expand BoundingBox.zero
      rw [if_pos ⟨rfl, rfl⟩]
    have hle : pointLE (BoundingBox.mk p p).min (BoundingBox.mk p p).max :=
      ⟨le_refl _, le_refl _, le_refl _⟩
    have hnz : ¬((BoundingBox.mk p p).min = Point3D.origin ∧
        (BoundingBox.mk p p).max = Point3D.origin) := fun h => hp h.1
    obtain ⟨keep, absorb⟩ := foldl_expand_keeps rest ⟨p, p⟩ hle hnz
    have hfold : (p :: rest).foldl BoundingBox.expand BoundingBox.zero =
        rest.foldl BoundingBox.expand ⟨p, p⟩ := by
      simp [List.foldl_cons, hstep]
    rw [hfold]
    rcases List.mem_cons.mp hq with h | h
    · subst h
      exact keep q ⟨⟨le_refl _, le_refl _, le_refl _⟩, ⟨le_refl _, le_refl _, le_refl _⟩⟩
    · exact absorb q h

/-- A concrete mesh whose first vertex is not the origin, used to witness
`boundingBox_invariant_amended`. -/
def offsetTriangle : Triangle := ⟨⟨1, 0, 0⟩, ⟨2, 0, 0⟩, ⟨3, 0, 0⟩⟩

theorem boundingBox_invariant_witness :
    pointInBox (GeometryUtils.calculateBoundingBox [offsetTriangle]) ⟨1, 0, 0⟩ :=
  boundingBox_invariant_amended.2 [offsetTriangle] ⟨1, 0, 0⟩ [⟨2, 0, 0⟩, ⟨3, 0, 0⟩]
    (by decide) (by decide) ⟨1, 0, 0⟩ (by decide)

/-! ### Antenna detector (antenna_detector.cpp), default configuration -/

/-- `maxWireDiameter_` default: 0.01 m. -/
def maxWireDiameter : ℚ := 1/100

/-- `minWireLength_` default: 0.1 m. -/
def minWireLength : ℚ := 1/10

/-- `maxWireLength_` default: 10 m. -/
def maxWireLength : ℚ := 10

/-- `AntennaWire` from antenna_detector.h. -/
structure AntennaWire where
  triangles : List Triangle
  path : List Point3D
  radius : ℝ
  length : ℝ
  startPoint : Point3D
  endPoint : Point3D
  isDetected : Bool

/-- The default-constructed `AntennaWire()`: radius 0, length 0, not
detected, start/end at default points. -/
def AntennaWire.empty : AntennaWire :=
  ⟨[], [], 0, 0, Point3D.origin, Point3D.origin, false⟩

/-- `AntennaDetector::findWireLikeComponents`: every triangle becomes its
own single-triangle component. -/
def findWireLikeComponents (ts : List Triangle) : List (List Triangle) :=
  ts.map (fun t => [t])

/-- The bounding-box extents `{size.x, size.y, size.z}` of a component,
before sorting. -/
def boxDims (c : List Triangle) : List ℚ :=
  let s := (GeometryUtils.calculateBoundingBox c).size
  [s.x, s.y, s.z]

/-- The extents after `std::sort` (ascending). -/
def sortedDims (c : List Triangle) : List ℚ :=
  (boxDims c).insertionSort (· ≤ ·)

/-- `AntennaDetector::isWireLikeComponent`: an empty component is not
wire-like; otherwise the two smallest sorted extents must each be at most
`maxWireDiameter_`. -/
def isWireLikeComponent (c : List Triangle) : Bool :=
  if c.isEmpty then false
  else
    decide ((sortedDims c).getD 0 0 ≤ maxWireDiameter) &&
      decide ((sortedDims c).getD 1 0 ≤ maxWireDiameter)

open Classical in
/-- The scan inside `AntennaDetector::simplifyPath`: `last` is the last
point kept so far (`simplified.back()`); a middle point is kept only when
its distance from `last` exceeds the tolerance (default 1e-3 m). -/
noncomputable def simplifyAux : List Point3D → Point3D → List Point3D
  | [], _ => []
  | p :: rest, last =>
    if Point3D.distance p last > (1/1000 : ℝ) then p :: simplifyAux rest p
    else simplifyAux rest last

/-- `AntennaDetector::simplifyPath` (tolerance 1e-3): paths of at most two
points are returned unchanged; otherwise the first point is kept, the
middle points are filtered by `simplifyAux`, and the last point is always
appended. -/
noncomputable def simplifyPath (path : List Point3D) : List Point3D :=
  if path.length ≤ 2 then path
  else
    match path with
    | [] => []
    | p0 :: rest => p0 :: (simplifyAux rest.dropLast p0 ++ [rest.getLastD p0])

/-- `AntennaDetector::extractWirePath`: triangle centroids in encounter
order, then simplified. -/
noncomputable def extractWirePath (c : List Triangle) : List Point3D :=
  simplifyPath (c.map Triangle.center)

/-- Sum of consecutive distances along a path. -/
noncomputable def pathLengthAux : List Point3D → ℝ
  | p :: q :: rest => Point3D.distance p q + pathLengthAux (q :: rest)
  | _ => 0

/-- `AntennaDetector::calculateWireLength`: 0 for paths of fewer than two
points, otherwise the sum of consecutive distances. -/
noncomputable def calculateWireLength (path : List Point3D) : ℝ :=
  if path.length < 2 then 0 else pathLengthAux path

/-- `AntennaDetector::calculateWireRadius`: the mean distance from the
centroid of all component vertices to each vertex (`center` accumulates
all vertices and is scaled by `1.0 / vertexCount`; `totalDistance` sums
`center.distance(vertex)` and is divided by `vertexCount`). -/
noncomputable def calculateWireRadius (c : List Triangle) : ℝ :=
  if c.isEmpty then 0
  else if (trianglePoints c).length = 0 then 0
  else
    ((trianglePoints c).map fun v =>
      Point3D.distance
        (((trianglePoints c).foldl Point3D.add Point3D.origin).smul
          (1 / (((trianglePoints c).length : ℚ)))) v).sum /
      (((trianglePoints c).length : ℕ) : ℝ)

/-- `AntennaDetector::isReasonableAntennaLength`:
`length >= minWireLength_ && length <= maxWireLength_`. -/
def isReasonableAntennaLength (length : ℝ) : Prop :=
  ((minWireLength : ℚ) : ℝ) ≤ length ∧ length ≤ ((maxWireLength : ℚ) : ℝ)

/-- `AntennaDetector::isReasonableAntennaRadius`:
`radius > 0.0 && radius <= 0.01`. -/
def isReasonableAntennaRadius (radius : ℝ) : Prop :=
  0 < radius ∧ radius ≤ (1/100 : ℝ)

/-- The accepted-candidate record built at antenna_detector.cpp:31-40:
path, radius, length, start/end points (start/end stay at their defaults
when the path is empty) and `isDetected = true`. -/
noncomputable def acceptWire (c : List Triangle) : AntennaWire :=
  let path := extractWirePath c
  { triangles := c
    path := path
    radius := calculateWireRadius c
    length := calculateWireLength path
    startPoint := path.headD Point3D.origin
    endPoint := path.getLastD Point3D.origin
    isDetected := true }

open Classical in
/-- The candidate loop of `AntennaDetector::detectAntenna`
(antenna_detector.cpp:24-44): scan components in order, accept the first
wire-like component with reasonable length and radius. -/
noncomputable def detectLoop : List (List Triangle) → AntennaWire
  | [] => AntennaWire.empty
  | c :: cs =>
    if isWireLikeComponent c then
      if isReasonableAntennaLength (calculateWireLength (extractWirePath c)) ∧
          isReasonableAntennaRadius (calculateWireRadius c) then
        acceptWire c
      else detectLoop cs
    else detectLoop cs

/-- `AntennaDetector::detectAntenna` with the default configuration. -/
noncomputable def detectAntenna (ts : List Triangle) : AntennaWire :=
  if ts.isEmpty then AntennaWire.empty
  else detectLoop (findWireLikeComponents ts)

/-- A component is accepted by the loop exactly when it is wire-like and
its computed length and radius are both in range. -/
def accepted (c : List Triangle) : Prop :=
  isWireLikeComponent c = true ∧
    isReasonableAntennaLength (calculateWireLength (extractWirePath c)) ∧
    isReasonableAntennaRadius (calculateWireRadius c)

/-! #### C1: the default detector never detects anything -/

theorem extractWirePath_singleton (t : Triangle) :
    extractWirePath [t] = [t.center] := by
  unfold extractWirePath simplifyPath
  simp

theorem calculateWireLength_short {path : List Point3D} (h : path.length < 2) :
    calculateWireLength path = 0 := by
  unfold calculateWireLength
  rw [if_pos h]

theorem length_zero_not_reasonable : ¬ isReasonableAntennaLength 0 := by
  intro h
  have := h.1
  norm_num [minWireLength] at this

theorem detectLoop_singletons (ts : List Triangle) :
    detectLoop (ts.map fun t => [t]) = AntennaWire.empty := by
  induction ts with
  | nil => simp [detectLoop]
  | cons t ts ih =>
    rw [List.map_cons, detectLoop]
    have hlen : calculateWireLength (extractWirePath [t]) = 0 := by
      rw [extractWirePath_singleton]
      exact calculateWireLength_short (by simp)
    have hno : ¬(isReasonableAntennaLength (calculateWireLength (extractWirePath [t])) ∧
        isReasonableAntennaRadius (calculateWireRadius [t])) := by
      rw [hlen]
      exact fun h => length_zero_not_reasonable h.1
    by_cases hw : isWireLikeComponent [t]
    · rw [if_pos hw, if_neg hno]; exact ih
    · rw [if_neg hw]; exact ih

/-- C1: with the default configuration (`minWireLength_ = 0.1`), every
non-empty triangle sequence yields `isDetected = false`:
`findWireLikeComponents` makes each triangle its own component, a
one-triangle component has a one-point centroid path, whose
`calculateWireLength` is 0, which is below the minimum length, so no
candidate is ever accepted. -/
theorem detectAntenna_never_detects_default (ts : List Triangle) (h : ts ≠ []) :
    (detectAntenna ts).isDetected = false := by
  unfold detectAntenna
  rw [if_neg (by simpa using h)]
  unfold findWireLikeComponents
  rw [detectLoop_singletons]
  rfl

theorem detectAntenna_never_detects_default_witness :
    ([originFirstTriangle] ≠ ([] : List Triangle)) ∧
      (detectAntenna [originFirstTriangle]).isDetected = false :=
  ⟨by decide, detectAntenna_never_detects_default [originFirstTriangle] (by decide)⟩

/-! #### C7: first-match acceptance rule -/

theorem detectLoop_cons_accepted {c : List Triangle} (cs : List (List Triangle))
    (h : accepted c) : detectLoop (c :: cs) = acceptWire c := by
  rw [detectLoop, if_pos h.1, if_pos ⟨h.2.1, h.2.2⟩]

theorem detectLoop_cons_rejected {c : List Triangle} (cs : List (List Triangle))
    (h : ¬ accepted c) : detectLoop (c :: cs) = detectLoop cs := by
  rw [detectLoop]
  by_cases hw : isWireLikeComponent c
  · rw [if_pos hw, if_neg (fun hlr => h ⟨hw, hlr.1, hlr.2⟩)]
  · rw [if_neg hw]

theorem detectLoop_all_rejected {cs : List (List Triangle)}
    (h : ∀ c ∈ cs, ¬ accepted c) : detectLoop cs = AntennaWire.empty := by
  induction cs with
  | nil => rfl
  | cons c cs ih =>
    rw [detectLoop_cons_rejected cs (h c (by simp))]
    exact ih fun x hx => h x (by simp [hx])

theorem detectLoop_isDetected_iff (cs : List (List Triangle)) :
    (detectLoop cs).isDetected = true ↔ ∃ c ∈ cs, accepted c := by
  induction cs with
  | nil => simp [detectLoop, AntennaWire.empty]
  | cons c cs ih =>
    by_cases hc : accepted c
    · rw [detectLoop_cons_accepted cs hc]
      have hdet : (acceptWire c).isDetected = true := rfl
      rw [hdet]
      exact iff_of_true rfl ⟨c, by simp, hc⟩
    · rw [detectLoop_cons_rejected cs hc, ih]
      constructor
      · rintro ⟨d, hd, hacc⟩; exact ⟨d, by simp [hd], hacc⟩
      · rintro ⟨d, hd, hacc⟩
        rcases List.mem_cons.mp hd with h | h
        · exact absurd (h ▸ hacc) hc
        · exact ⟨d, h, hacc⟩

theorem detectLoop_first (pre : List (List Triangle)) (c : List Triangle)
    (cs : List (List Triangle)) (hpre : ∀ x ∈ pre, ¬ accepted x) (hc : accepted c) :
    detectLoop (pre ++ c :: cs) = acceptWire c := by
  induction pre with
  | nil => simpa using detectLoop_cons_accepted cs hc
  | cons d pre ih =>
    rw [List.cons_append, detectLoop_cons_rejected _ (hpre d (by simp))]
    exact ih fun x hx => hpre x (by simp [hx])

/-- Distance along a pure x-axis displacement is the absolute coordinate
difference. -/
theorem distance_axis (p q : Point3D) (hy : p.y = q.y) (hz : p.z = q.z) :
    Point3D.distance p q = |((p.x - q.x : ℚ) : ℝ)| := by
  have h1 : p.distSq q = (p.x - q.x) * (p.x - q.x) := by
    unfold Point3D.distSq
    rw [hy, hz]
    ring
  unfold Point3D.distance
  rw [h1,
    show (((p.x - q.x) * (p.x - q.x) : ℚ) : ℝ) = ((p.x - q.x : ℚ) : ℝ) ^ 2 by push_cast; ring]
  exact Real.sqrt_sq_eq_abs _

/-- A degenerate point-triangle at the origin. -/
def ptA : Point3D := ⟨0, 0, 0⟩

/-- A degenerate point-triangle at x = 0.02 m. -/
def ptB : Point3D := ⟨1/50, 0, 0⟩

def triA : Triangle := ⟨ptA, ptA, ptA⟩

def triB : Triangle := ⟨ptB, ptB, ptB⟩

/-- A six-triangle component whose centroid path zig-zags between `ptA`
and `ptB`: wire-like, with computed length exactly 0.1 m and computed
radius exactly 0.01 m, so it is accepted by the default thresholds. -/
def zigzagComponent : List Triangle := [triA, triB, triA, triB, triA, triB]

theorem dist_ptA_ptB : Point3D.distance ptA ptB = (1/50 : ℝ) := by
  rw [distance_axis ptA ptB rfl rfl]
  norm_num [ptA, ptB]

theorem dist_ptB_ptA : Point3D.distance ptB ptA = (1/50 : ℝ) := by
  rw [distance_axis ptB ptA rfl rfl]
  norm_num [ptA, ptB]

theorem zigzag_box :
    GeometryUtils.calculateBoundingBox zigzagComponent = ⟨ptA, ptB⟩ := by
  norm_num [GeometryUtils.calculateBoundingBox, trianglePoints, zigzagComponent,
    Triangle.vertices, triA, triB, BoundingBox.expand, BoundingBox.zero, Point3D.origin,
    ptA, ptB, min_def, max_def]

theorem zigzag_wirelike : isWireLikeComponent zigzagComponent = true := by
  have hdims : sortedDims zigzagComponent = [0, 0, 1/50] := by
    norm_num [sortedDims, boxDims, zigzag_box, BoundingBox.size, ptA, ptB,
      List.insertionSort, List.orderedInsert]
  unfold isWireLikeComponent
  rw [if_neg (by decide), hdims]
  norm_num [maxWireDiameter]

theorem zigzag_path :
    extractWirePath zigzagComponent = [ptA, ptB, ptA, ptB, ptA, ptB] := by
  have hA : Triangle.center triA = ptA := by
    norm_num [Triangle.center, triA, ptA]
  have hB : Triangle.center triB = ptB := by
    norm_num [Triangle.center, triB, ptB]
  have hmap : zigzagComponent.map Triangle.center = [ptA, ptB, ptA, ptB, ptA, ptB] := by
    simp [zigzagComponent, hA, hB]
  have hab : Point3D.distance ptB ptA > (1/1000 : ℝ) := by rw [dist_ptB_ptA]; norm_num
  have hba : Point3D.distance ptA ptB > (1/1000 : ℝ) := by rw [dist_ptA_ptB]; norm_num
  unfold extractWirePath
  rw [hmap]
  unfold simplifyPath
  rw [if_neg (by norm_num)]
  simp only [List.dropLast, List.getLastD]
  rw [simplifyAux, if_pos hab, simplifyAux, if_pos hba, simplifyAux, if_pos hab,
    simplifyAux, if_pos hba, simplifyAux]
  rfl

theorem zigzag_length :
    calculateWireLength (extractWirePath zigzagComponent) = (1/10 : ℝ) := by
  rw [zigzag_path]
  unfold calculateWireLength
  rw [if_neg (by norm_num)]
  simp only [pathLengthAux, dist_ptA_ptB, dist_ptB_ptA]
  norm_num

theorem zigzag_radius : calculateWireRadius zigzagComponent = (1/100 : ℝ) := by
  have hdA : Point3D.distance ⟨1/100, 0, 0⟩ ptA = (1/100 : ℝ) := by
    rw [distance_axis ⟨1/100, 0, 0⟩ ptA (by norm_num [ptA]) (by norm_num [ptA])]
    norm_num [ptA]
  have hdB : Point3D.distance ⟨1/100, 0, 0⟩ ptB = (1/100 : ℝ) := by
    rw [distance_axis ⟨1/100, 0, 0⟩ ptB (by norm_num [ptB]) (by norm_num [ptB])]
    norm_num [ptB]
  have hpts : trianglePoints zigzagComponent =
      [ptA, ptA, ptA, ptB, ptB, ptB, ptA, ptA, ptA, ptB, ptB, ptB,
        ptA, ptA, ptA, ptB, ptB, ptB] := rfl
  have hcent : ((trianglePoints zigzagComponent).foldl Point3D.add Point3D.origin).smul
      (1 / (((trianglePoints zigzagComponent).length : ℚ))) = ⟨1/100, 0, 0⟩ := by
    rw [hpts]
    norm_num [Point3D.add, Point3D.origin, Point3D.smul, ptA, ptB]
  unfold calculateWireRadius
  rw [if_neg (by decide), if_neg (by simp [hpts]), hcent, hpts]
  simp only [List.map_cons, List.map_nil, List.sum_cons, List.sum_nil,
    List.length_cons, List.length_nil, hdA, hdB]
  norm_num

theorem zigzag_accepted : accepted zigzagComponent := by
  refine ⟨zigzag_wirelike, ?_, ?_⟩
  · rw [zigzag_length]
    constructor
    · norm_num [minWireLength]
    · norm_num [maxWireLength]
  · rw [zigzag_radius]
    constructor <;> norm_num

/-- C7: the detector accepts a wire-like component exactly when its
computed path length lies in `[minWireLength, maxWireLength]` and its
computed radius lies in `(0, 0.01]`; the loop stops at the first accepted
candidate in component order; when nothing is accepted the result is the
empty wire with `isDetected = false`; and the spec's example candidates —
a 15 m path and a 0.05 m path of 0.005 m radius — fail the acceptance
test. -/
theorem detectAntenna_first_match_rule :
    (∀ ts : List Triangle,
      ((detectAntenna ts).isDetected = true ↔
        ∃ c ∈ findWireLikeComponents ts, accepted c)) ∧
    (∀ (pre : List (List Triangle)) (c : List Triangle) (cs : List (List Triangle)),
      (∀ x ∈ pre, ¬ accepted x) → accepted c →
      detectLoop (pre ++ c :: cs) = acceptWire c) ∧
    (∀ ts : List Triangle,
      (∀ c ∈ findWireLikeComponents ts, ¬ accepted c) →
      detectAntenna ts = AntennaWire.empty) ∧
    ¬ (isReasonableAntennaLength 15 ∧ isReasonableAntennaRadius (1/200 : ℝ)) ∧
    ¬ (isReasonableAntennaLength (1/20 : ℝ) ∧ isReasonableAntennaRadius (1/200 : ℝ)) := by
  refine ⟨?_, detectLoop_first, ?_, ?_, ?_⟩
  · intro ts
    unfold detectAntenna
    by_cases h : ts.isEmpty
    · rw [if_pos h]
      have : findWireLikeComponents ts = [] := by
        unfold findWireLikeComponents
        rw [List.isEmpty_iff.mp h]
        rfl
      simp [this, AntennaWire.empty]
    · rw [if_neg h]
      exact detectLoop_isDetected_iff (findWireLikeComponents ts)
  · intro ts h
    unfold detectAntenna
    by_cases hemp : ts.isEmpty
    · rw [if_pos hemp]
    · rw [if_neg hemp]
      exact detectLoop_all_rejected h
  · rintro ⟨hlen, -⟩
    have := hlen.2
    norm_num [maxWireLength] at this
  · rintro ⟨hlen, -⟩
    have := hlen.1
    norm_num [minWireLength] at this

theorem detectAntenna_first_match_rule_witness :
    detectLoop [zigzagComponent] = acceptWire zigzagComponent :=
  detectAntenna_first_match_rule.2.1 [] zigzagComponent [] (by simp) zigzag_accepted

/-! #### C8: wire-likeness via the two smallest extents -/

/-- The two smallest of three values are both at most `d` exactly when at
least two of the three values are at most `d`. -/
theorem sorted3_two_smallest (l : List ℚ) (d : ℚ) (hl : l.length = 3) :
    ((l.insertionSort (· ≤ ·)).getD 0 0 ≤ d ∧ (l.insertionSort (· ≤ ·)).getD 1 0 ≤ d) ↔
      2 ≤ l.countP (fun e => decide (e ≤ d)) := by
  have hperm : (l.insertionSort (· ≤ ·)).Perm l := List.perm_insertionSort _ l
  have hsorted : (l.insertionSort (· ≤ ·)).Sorted (· ≤ ·) := List.sorted_insertionSort _ l
  have hcount : l.countP (fun e => decide (e ≤ d)) =
      (l.insertionSort (· ≤ ·)).countP (fun e => decide (e ≤ d)) :=
    (hperm.countP_eq _).symm
  have hlen : (l.insertionSort (· ≤ ·)).length = 3 := by
    rw [hperm.length_eq, hl]
  rw [hcount]
  rcases hs : l.insertionSort (· ≤ ·) with _ | ⟨a, _ | ⟨b, _ | ⟨c, rest⟩⟩⟩ <;>
    rw [hs] at hlen <;> simp at hlen
  subst hlen
  rw [hs] at hsorted
  have hab : a ≤ b := (List.sorted_cons.mp hsorted).1 b (by simp)
  have hbc : b ≤ c := ((List.sorted_cons.mp (List.sorted_cons.mp hsorted).2).1 c (by simp))
  simp only [List.getD_cons_zero, List.getD_cons_succ, List.countP_cons, List.countP_nil]
  constructor
  · rintro ⟨ha, hb⟩
    by_cases hc : c ≤ d <;> simp [ha, hb, hc]
  · intro h2
    by_cases hb : b ≤ d
    · exact ⟨le_trans hab hb, hb⟩
    · exfalso
      have hc : ¬ c ≤ d := fun h => hb (le_trans hbc h)
      by_cases ha : a ≤ d <;> simp [ha, hb, hc] at h2

/-- A two-triangle component spanning a 1 m × 1 m × 1 m box. -/
def cubeComponent : List Triangle :=
  [⟨⟨1, 1, 1⟩, ⟨0, 0, 0⟩, ⟨1, 0, 0⟩⟩, ⟨⟨0, 1, 0⟩, ⟨0, 0, 1⟩, ⟨1, 1, 0⟩⟩]

/-- C8: a non-empty component is classified wire-like iff at least two of
its three bounding-box extents (equivalently, the two smallest after
sorting ascending) are each at most the maximum wire diameter; and the
1 m × 1 m × 1 m `cubeComponent` is never wire-like at the default 0.01 m
diameter. -/
theorem isWireLike_iff_two_smallest_extents :
    (∀ c : List Triangle, c ≠ [] →
      (isWireLikeComponent c = true ↔
        2 ≤ (boxDims c).countP (fun e => decide (e ≤ maxWireDiameter)))) ∧
    isWireLikeComponent cubeComponent = false := by
  constructor
  · intro c hc
    unfold isWireLikeComponent
    rw [if_neg (by simpa using hc)]
    rw [Bool.and_eq_true, decide_eq_true_eq, decide_eq_true_eq]
    exact sorted3_two_smallest (boxDims c) maxWireDiameter (by simp [boxDims])
  · have hbox : GeometryUtils.calculateBoundingBox cubeComponent = ⟨⟨0, 0, 0⟩, ⟨1, 1, 1⟩⟩ := by
      norm_num [GeometryUtils.calculateBoundingBox, trianglePoints, cubeComponent,
        Triangle.vertices, BoundingBox.expand, BoundingBox.zero, Point3D.origin,
        min_def, max_def]
    have hdims : sortedDims cubeComponent = [1, 1, 1] := by
      norm_num [sortedDims, boxDims, hbox, BoundingBox.size,
        List.insertionSort, List.orderedInsert]
    unfold isWireLikeComponent
    rw [if_neg (by decide), hdims]
    norm_num [maxWireDiameter]

theorem isWireLike_iff_witness :
    (cubeComponent ≠ []) ∧
      (isWireLikeComponent cubeComponent = true ↔
        2 ≤ (boxDims cubeComponent).countP (fun e => decide (e ≤ maxWireDiameter))) :=
  ⟨by decide, isWireLike_iff_two_smallest_extents.1 cubeComponent (by decide)⟩

/-! ### Frequency calculator (frequency_calculator.cpp) -/

namespace FrequencyCalculator

/-- `FrequencyCalculator::calculateSegments`: 1 for non-positive spacing,
otherwise `ceil(wireLength / gridSpacing)` (the `static_cast<int>` of the
exact ceiling). -/
def calculateSegments (wireLength gridSpacing : ℚ) : ℤ :=
  if gridSpacing ≤ 0 then 1 else ⌈wireLength / gridSpacing⌉

end FrequencyCalculator

/-- C10: `calculateSegments(L, g)` is `ceil(L / g)` when `g > 0` and 1
when `g ≤ 0`; in particular 1.0 m at 0.05 m spacing gives 20 segments and
1.0 m at 0.03 m spacing gives 34. -/
theorem calculateSegments_ceil_spec :
    (∀ L g : ℚ, FrequencyCalculator.calculateSegments L g =
      if 0 < g then ⌈L / g⌉ else 1) ∧
    FrequencyCalculator.calculateSegments 1 (1/20) = 20 ∧
    FrequencyCalculator.calculateSegments 1 (3/100) = 34 := by
  refine ⟨?_, ?_, ?_⟩
  · intro L g
    unfold FrequencyCalculator.calculateSegments
    rcases le_or_lt g 0 with h | h
    · rw [if_pos h, if_neg (not_lt.mpr h)]
    · rw [if_neg (not_le.mpr h), if_pos h]
  · unfold FrequencyCalculator.calculateSegments
    rw [if_neg (by norm_num)]
    norm_num
  · unfold FrequencyCalculator.calculateSegments
    rw [if_neg (by norm_num)]
    rw [show (1 : ℚ) / (3/100) = 100/3 by norm_num]
    rw [Int.ceil_eq_iff]
    norm_num

/-! ### Ground modeler (ground_modeler.cpp) -/

/-- `GroundType` from ground_modeler.h. -/
inductive GroundType
  | perfectGround
  | sommerfeldNorton
  | finiteGroundScreen
  | realGround
  | waterGround
deriving DecidableEq, Repr

/-- `GroundParameters` from ground_modeler.h (the `description` field is
never read by the generator and is omitted). -/
structure GroundParameters where
  type : GroundType
  conductivity : ℚ
  relativePermittivity : ℚ
  groundHeight : ℚ
  screenRadius : ℚ
deriving DecidableEq, Repr

/-- `WaterProperties` from material_database.h: conductivity,
permittivity and a type label. -/
structure WaterProperties where
  conductivity : ℚ
  relativePermittivity : ℚ
  waterType : String
deriving DecidableEq, Repr

namespace GroundModeler

/-- `GroundModeler::isValidConductivity`: `0 <= c <= 1.0e8`. -/
def isValidConductivity (c : ℚ) : Bool :=
  decide (0 ≤ c) && decide (c ≤ 100000000)

/-- `GroundModeler::isValidPermittivity`: `1 <= p <= 100`. -/
def isValidPermittivity (p : ℚ) : Bool :=
  decide (1 ≤ p) && decide (p ≤ 100)

/-- `GroundModeler::validateGroundParameters`. -/
def validateGroundParameters (params : GroundParameters) : Bool :=
  if params.type = GroundType.perfectGround then true
  else if !isValidConductivity params.conductivity then false
  else if !isValidPermittivity params.relativePermittivity then false
  else if params.type = GroundType.finiteGroundScreen ∧ params.screenRadius ≤ 0 then false
  else true

/-- `GroundModeler::getValidationError`. -/
def getValidationError (params : GroundParameters) : String :=
  if params.type = GroundType.perfectGround then ""
  else if !isValidConductivity params.conductivity then "Invalid conductivity value"
  else if !isValidPermittivity params.relativePermittivity then "Invalid permittivity value"
  else if params.type = GroundType.finiteGroundScreen ∧ params.screenRadius ≤ 0 then
    "Invalid screen radius"
  else ""

/-- `GroundModeler::formatGroundConductivity` renders the value in
scientific notation with 2-digit precision; the model renders the exact
rational instead, since no claim depends on the digits, only on the
directive keyword that precedes them. -/
def formatGroundConductivity (conductivity : ℚ) : String := toString conductivity

/-- `GroundModeler::formatGroundPermittivity` renders the value in fixed
notation with 1-digit precision; modelled like
`formatGroundConductivity`. -/
def formatGroundPermittivity (permittivity : ℚ) : String := toString permittivity

/-- `GroundModeler::generatePerfectGround`. -/
def generatePerfectGround : String := "GN -1\n"

/-- `GroundModeler::generateSommerfeldNortonGround`. -/
def generateSommerfeldNortonGround (params : GroundParameters) : String :=
  "GN 1 0 0 0 " ++ formatGroundPermittivity params.relativePermittivity ++ " " ++
    formatGroundConductivity params.conductivity ++ "\n"

/-- `GroundModeler::generateFiniteGroundScreen`. -/
def generateFiniteGroundScreen (params : GroundParameters) : String :=
  "GN 0 0 0 0 " ++ formatGroundPermittivity params.relativePermittivity ++ " " ++
    formatGroundConductivity params.conductivity ++ "\n" ++
    "GD 0.0 0.0 0.001 0.001 " ++ toString params.screenRadius ++ " " ++
    toString params.screenRadius ++ "\n"

/-- `GroundModeler::generateRealGround`. -/
def generateRealGround (params : GroundParameters) : String :=
  "GN 2 0 0 0 " ++ formatGroundPermittivity params.relativePermittivity ++ " " ++
    formatGroundConductivity params.conductivity ++ "\n"

/-- `GroundModeler::generateWaterGround`: note that the supplied water
properties are ignored and the parameter values are used. -/
def generateWaterGround (params : GroundParameters) (water : Option WaterProperties) :
    String :=
  "GN 2 0 0 0 " ++ formatGroundPermittivity params.relativePermittivity ++ " " ++
    formatGroundConductivity params.conductivity ++ "\n"

/-- The one-argument overload of `GroundModeler::generateGroundCommand`:
invalid parameters produce a comment line `CM <error>`. -/
def generateGroundCommand (params : GroundParameters) : String :=
  if !validateGroundParameters params then
    "CM " ++ getValidationError params ++ "\n"
  else
    match params.type with
    | GroundType.perfectGround => generatePerfectGround
    | GroundType.sommerfeldNorton => generateSommerfeldNortonGround params
    | GroundType.finiteGroundScreen => generateFiniteGroundScreen params
    | GroundType.realGround => generateRealGround params
    | GroundType.waterGround => generateWaterGround params none

/-- The two-argument (water-properties) overload of
`GroundModeler::generateGroundCommand`: with a water ground type and
non-null water pointer it calls `generateWaterGround` directly, without
validating the parameters. -/
def generateGroundCommandWater (params : GroundParameters)
    (water : Option WaterProperties) : String :=
  if params.type = GroundType.waterGround ∧ water.isSome then
    generateWaterGround params water
  else generateGroundCommand params

end GroundModeler

/-- Water-ground parameters with an invalid conductivity (−1 S/m). -/
def invalidWaterParams : GroundParameters :=
  ⟨GroundType.waterGround, -1, 81, 0, 0⟩

/-- A non-null water-properties value (salt water). -/
def saltWater : WaterProperties := ⟨9/2, 81, "salt water"⟩

/-- C9 counterexample: `invalidWaterParams` fails validation, yet the
water-properties overload of `generateGroundCommand` (water ground type,
non-null water) emits a `GN` ground directive, not the comment-only
placeholder. -/
theorem waterOverload_bypasses_validation :
    GroundModeler.validateGroundParameters invalidWaterParams = false ∧
    GroundModeler.generateGroundCommandWater invalidWaterParams (some saltWater) =
      "GN 2 0 0 0 81 -1\n" ∧
    GroundModeler.generateGroundCommandWater invalidWaterParams (some saltWater) ≠
      "CM " ++ GroundModeler.getValidationError invalidWaterParams ++ "\n" := by
  refine ⟨by decide, by decide, by decide⟩

/-- C9 amended: the one-argument overload emits the comment-only
placeholder for every invalid parameter set, and so does the
water-properties overload except in the bypass case (water ground type
with non-null water properties, where `generateWaterGround` is called
without validation); perfect ground is never validated; out-of-range
conductivity, out-of-range permittivity, and a non-positive screen radius
for the finite-ground-screen type each fail validation.  Generation is a
total function, so it never aborts. -/
theorem invalid_ground_params_comment_amended :
    (∀ params : GroundParameters,
      GroundModeler.validateGroundParameters params = false →
      GroundModeler.generateGroundCommand params =
        "CM " ++ GroundModeler.getValidationError params ++ "\n") ∧
    (∀ (params : GroundParameters) (water : Option WaterProperties),
      GroundModeler.validateGroundParameters params = false →
      ¬(params.type = GroundType.waterGround ∧ water.isSome = true) →
      GroundModeler.generateGroundCommandWater params water =
        "CM " ++ GroundModeler.getValidationError params ++ "\n") ∧
    (∀ params : GroundParameters, params.type = GroundType.perfectGround →
      GroundModeler.validateGroundParameters params = true) ∧
    (∀ params : GroundParameters, params.type ≠ GroundType.perfectGround →
      GroundModeler.isValidConductivity params.conductivity = false →
      GroundModeler.validateGroundParameters params = false) ∧
    (∀ params : GroundParameters, params.type ≠ GroundType.perfectGround →
      GroundModeler.isValidPermittivity params.relativePermittivity = false →
      GroundModeler.validateGroundParameters params = false) ∧
    (∀ params : GroundParameters, params.type = GroundType.finiteGroundScreen →
      params.screenRadius ≤ 0 →
      GroundModeler.validateGroundParameters params = false) := by
  have main : ∀ params : GroundParameters,
      GroundModeler.validateGroundParameters params = false →
      GroundModeler.generateGroundCommand params =
        "CM " ++ GroundModeler.getValidationError params ++ "\n" := by
    intro params h
    unfold GroundModeler.generateGroundCommand
    rw [h]
    rfl
  refine ⟨main, ?_, ?_, ?_, ?_, ?_⟩
  · intro params water h hnot
    unfold GroundModeler.generateGroundCommandWater
    rw [if_neg hnot]
    exact main params h
  · intro params h
    unfold GroundModeler.validateGroundParameters
    rw [if_pos h]
  · intro params htype hc
    unfold GroundModeler.validateGroundParameters
    rw [if_neg (by simp [htype]), if_pos (by simp [hc])]
  · intro params htype hp
    unfold GroundModeler.validateGroundParameters
    rw [if_neg (by simp [htype])]
    by_cases hc : GroundModeler.isValidConductivity params.conductivity
    · rw [if_neg (by simp [hc]), if_pos (by simp [hp])]
    · rw [if_pos (by simp [hc])]
  · intro params htype hrad
    unfold GroundModeler.validateGroundParameters
    rw [if_neg (by simp [htype])]
    by_cases hc : GroundModeler.isValidConductivity params.conductivity
    · rw [if_neg (by simp [hc])]
      by_cases hp : GroundModeler.isValidPermittivity params.relativePermittivity
      · rw [if_neg (by simp [hp]), if_pos ⟨htype, hrad⟩]
      · rw [if_pos (by simp [hp])]
    · rw [if_pos (by simp [hc])]

theorem invalid_ground_params_comment_witness :
    GroundModeler.generateGroundCommand invalidWaterParams =
      "CM " ++ GroundModeler.getValidationError invalidWaterParams ++ "\n" :=
  invalid_ground_params_comment_amended.1 invalidWaterParams (by decide)

/-! ### Binary STL parsing (stl_parser.cpp, STLParser::parseBinary)

The file content is a byte list (each entry < 256).  Out-of-range reads
are modelled with `List.getD _ _ 0`; the theorems below show the parser
never depends on bytes beyond the expected size. -/

/-- Byte access, `data[i]`. -/
def byteAt (data : List ℕ) (i : ℕ) : ℕ := data.getD i 0

/-- A 4-byte little-endian unsigned integer read (the `memcpy` into
`uint32_t` / `float` bit patterns). -/
def le32 (data : List ℕ) (off : ℕ) : ℕ :=
  byteAt data off + 256 * byteAt data (off + 1) + 65536 * byteAt data (off + 2) +
    16777216 * byteAt data (off + 3)

/-- Decode an IEEE-754 binary32 bit pattern to an exact rational.  The
exponent-255 patterns (infinities and NaNs) have no rational value and
are mapped to 0; no claim depends on decoded coordinate values. -/
def floatOfBits (w : ℕ) : ℚ :=
  (if w / 2 ^ 31 % 2 = 1 then -1 else 1) *
    (if w / 2 ^ 23 % 256 = 255 then 0
     else if w / 2 ^ 23 % 256 = 0 then
       ((w % 2 ^ 23 : ℕ) : ℚ) / 2 ^ 23 * (2 : ℚ) ^ (-(126 : ℤ))
     else (1 + ((w % 2 ^ 23 : ℕ) : ℚ) / 2 ^ 23) * (2 : ℚ) ^ ((w / 2 ^ 23 % 256 : ℕ) - (127 : ℤ)))

/-- Read a 4-byte float at `off`. -/
def readFloat (data : List ℕ) (off : ℕ) : ℚ := floatOfBits (le32 data off)

/-- Read a vertex: three consecutive floats. -/
def readPoint (data : List ℕ) (off : ℕ) : Point3D :=
  ⟨readFloat data off, readFloat data (off + 4), readFloat data (off + 8)⟩

/-- Read one 50-byte triangle record at `off`: 12 bytes of normal
(recomputed by the C++ constructor, not carried by the model), three
12-byte vertices, 2 bytes of attribute (skipped). -/
def readTriangleAt (data : List ℕ) (off : ℕ) : Triangle :=
  ⟨readPoint data (off + 12), readPoint data (off + 24), readPoint data (off + 36)⟩

/-- The record-reading loop of `parseBinary`, including its per-record
`offset + 50 > data.size()` guard. -/
def readTriangles (data : List ℕ) : ℕ → ℕ → Except String (List Triangle)
  | 0, _ => Except.ok []
  | n + 1, off =>
    if off + 50 > data.length then Except.error "Unexpected end of file"
    else
      match readTriangles data n (off + 50) with
      | Except.error e => Except.error e
      | Except.ok ts => Except.ok (readTriangleAt data off :: ts)

/-- The outcome of `STLParser::parseBinary`: the returned bool,
`errorMessage_`, and `triangles_`. -/
structure ParseResult where
  ok : Bool
  errorMessage : String
  triangles : List Triangle
deriving Repr

/-- `STLParser::parseBinary`: requires at least 84 bytes, reads the
little-endian triangle count at offset 80, requires
`data.size() >= 84 + count * 50`, reads the records, and finally returns
`!triangles_.empty()`.  (The C++ message uses a contraction; the model
spells it "does not".) -/
def parseBinary (data : List ℕ) : ParseResult :=
  if data.length < 84 then
    ⟨false, "File too small to be a valid binary STL", []⟩
  else if data.length < 84 + le32 data 80 * 50 then
    ⟨false, "File size does not match triangle count", []⟩
  else
    match readTriangles data (le32 data 80) 84 with
    | Except.error e => ⟨false, e, []⟩
    | Except.ok ts => ⟨!ts.isEmpty, "", ts⟩

/-- An oversized binary file: header count 1 (record bytes 84..133) but
ten extra trailing bytes, so its size 144 differs from `84 + 50·1`. -/
def oversizedBinary : List ℕ :=
  List.replicate 80 0 ++ [1, 0, 0, 0] ++ List.replicate 60 0

/-- A binary file truncated mid-record: header count 1 but only 10 bytes
of record data. -/
def truncatedBinary : List ℕ :=
  List.replicate 80 0 ++ [1, 0, 0, 0] ++ List.replicate 10 0

set_option maxRecDepth 10000 in
/-- C3 counterexample: `oversizedBinary` has 144 bytes while
`84 + 50×count = 134`, yet `parseBinary` accepts it — the code only
rejects files *smaller* than expected, so "loading succeeds only when the
size matches" is false. -/
theorem parseBinary_oversized_accepted :
    oversizedBinary.length ≠ 84 + 50 * le32 oversizedBinary 80 ∧
      (parseBinary oversizedBinary).ok = true ∧
      (parseBinary oversizedBinary).errorMessage = "" := by
  refine ⟨by decide, by decide, by decide⟩

theorem le32_congr {d1 d2 : List ℕ} {N : ℕ}
    (hag : ∀ i < N, d1.getD i 0 = d2.getD i 0) {off : ℕ} (h : off + 4 ≤ N) :
    le32 d1 off = le32 d2 off := by
  unfold le32 byteAt
  rw [hag off (by omega), hag (off + 1) (by omega), hag (off + 2) (by omega),
    hag (off + 3) (by omega)]

theorem readPoint_congr {d1 d2 : List ℕ} {N : ℕ}
    (hag : ∀ i < N, d1.getD i 0 = d2.getD i 0) {off : ℕ} (h : off + 12 ≤ N) :
    readPoint d1 off = readPoint d2 off := by
  unfold readPoint readFloat
  rw [le32_congr hag (by omega), le32_congr hag (show off + 4 + 4 ≤ N by omega),
    le32_congr hag (show off + 8 + 4 ≤ N by omega)]

theorem readTriangleAt_congr {d1 d2 : List ℕ} {N : ℕ}
    (hag : ∀ i < N, d1.getD i 0 = d2.getD i 0) {off : ℕ} (h : off + 50 ≤ N) :
    readTriangleAt d1 off = readTriangleAt d2 off := by
  unfold readTriangleAt
  rw [readPoint_congr hag (show off + 12 + 12 ≤ N by omega),
    readPoint_congr hag (show off + 24 + 12 ≤ N by omega),
    readPoint_congr hag (show off + 36 + 12 ≤ N by omega)]

theorem readTriangles_congr {d1 d2 : List ℕ} {N : ℕ}
    (hag : ∀ i < N, d1.getD i 0 = d2.getD i 0) (hlen : d1.length = d2.length) :
    ∀ n off : ℕ, off + 50 * n ≤ N →
      readTriangles d1 n off = readTriangles d2 n off := by
  intro n
  induction n with
  | zero => intro off _; rfl
  | succ n ih =>
    intro off hoff
    unfold readTriangles
    rw [hlen]
    by_cases hg : off + 50 > d2.length
    · rw [if_pos hg, if_pos hg]
    · rw [if_neg hg, if_neg hg,
        ih (off + 50) (by omega),
        readTriangleAt_congr hag (show off + 50 ≤ N by omega)]

theorem readTriangles_total (data : List ℕ) :
    ∀ n off : ℕ, off + 50 * n ≤ data.length →
      ∃ ts : List Triangle, readTriangles data n off = Except.ok ts ∧ ts.length = n := by
  intro n
  induction n with
  | zero => intro off _; exact ⟨[], rfl, rfl⟩
  | succ n ih =>
    intro off hoff
    obtain ⟨ts, hts, hlen⟩ := ih (off + 50) (by omega)
    refine ⟨readTriangleAt data off :: ts, ?_, by simp [hlen]⟩
    unfold readTriangles
    rw [if_neg (by omega), hts]

/-- C3 amended: `parseBinary` fails with the size-mismatch reason exactly
on files of at least 84 bytes that are *smaller* than `84 + 50×count`
(which covers every file truncated mid-record: no partial triangles are
returned); it accepts any file at least that large with `count ≥ 1`
(oversized files included, contrary to the original claim), parsing
exactly `count` triangles; and its result depends only on the first
`84 + 50×count` bytes, so it never reads past the expected size. -/
theorem parseBinary_size_check_characterization :
    (∀ data : List ℕ, 84 ≤ data.length → data.length < 84 + le32 data 80 * 50 →
      parseBinary data = ⟨false, "File size does not match triangle count", []⟩) ∧
    (∀ data : List ℕ, 84 + le32 data 80 * 50 ≤ data.length → 1 ≤ le32 data 80 →
      (parseBinary data).ok = true ∧
        (parseBinary data).triangles.length = le32 data 80) ∧
    (∀ d1 d2 : List ℕ, d1.length = d2.length →
      (∀ i < 84 + le32 d1 80 * 50, d1.getD i 0 = d2.getD i 0) →
      parseBinary d1 = parseBinary d2) := by
  refine ⟨?_, ?_, ?_⟩
  · intro data h84 hsmall
    unfold parseBinary
    rw [if_neg (by omega), if_pos hsmall]
  · intro data hbig hcount
    obtain ⟨ts, hts, hlen⟩ := readTriangles_total data (le32 data 80) 84 (by omega)
    have hne : ts.isEmpty = false := by
      cases ts with
      | nil => simp at hlen; omega
      | cons a l => rfl
    unfold parseBinary
    rw [if_neg (by omega), if_neg (by omega), hts]
    simp [hne, hlen]
  · intro d1 d2 hlen hag
    have h80 : le32 d1 80 = le32 d2 80 :=
      le32_congr hag (by omega)
    unfold parseBinary
    rw [hlen, h80, readTriangles_congr hag hlen (le32 d2 80) 84 (by omega)]

set_option maxRecDepth 10000 in
theorem parseBinary_size_check_witness :
    parseBinary truncatedBinary =
      ⟨false, "File size does not match triangle count", []⟩ :=
  parseBinary_size_check_characterization.1 truncatedBinary (by decide) (by decide)

/-! ### ASCII STL parsing (stl_parser.cpp, STLParser::parseASCII) -/

/-- The whitespace recognized by `istream` extraction (the inputs under
consideration contain only spaces, tabs and line breaks). -/
def isSpaceChar (c : Char) : Bool :=
  c = ' ' || c = '\t' || c = '\r' || c = '\n'

/-- Split a character list into maximal non-whitespace runs (`cur` is the
reversed run being accumulated). -/
def tokensAux : List Char → List Char → List String
  | [], cur => if cur.isEmpty then [] else [String.mk cur.reverse]
  | c :: cs, cur =>
    if isSpaceChar c then
      if cur.isEmpty then tokensAux cs []
      else String.mk cur.reverse :: tokensAux cs []
    else tokensAux cs (c :: cur)

/-- The whitespace-separated tokens of a line, as successive `>>`
extractions produce them. -/
def tokens (line : String) : List String :=
  tokensAux line.toList []

/-- The value of an all-digit character run. -/
def digitsToNat (cs : List Char) : ℕ :=
  cs.foldl (fun n c => 10 * n + (c.toNat - 48)) 0

/-- Split a character list at every dot. -/
def splitDotAux : List Char → List Char → List (List Char)
  | [], cur => [cur.reverse]
  | c :: cs, cur =>
    if c = '.' then cur.reverse :: splitDotAux cs []
    else splitDotAux cs (c :: cur)

/-- Parse a decimal token (optional sign, digits, optional fractional
part) as `strtod` would; exponent forms are not modelled, and no claim
depends on a parsed coordinate value. -/
def parseRatToken (s : String) : Option ℚ :=
  let cs := s.toList
  let sgn : ℚ := if cs.headD ' ' = '-' then -1 else 1
  let body : List Char :=
    if cs.headD ' ' = '-' || cs.headD ' ' = '+' then cs.tail else cs
  match splitDotAux body [] with
  | [ip] =>
    if ip ≠ [] ∧ ip.all Char.isDigit then
      some (sgn * (digitsToNat ip : ℚ))
    else none
  | [ip, fp] =>
    if ip ≠ [] ∧ fp ≠ [] ∧ ip.all Char.isDigit ∧ fp.all Char.isDigit then
      some (sgn * ((digitsToNat ip : ℚ) + (digitsToNat fp : ℚ) / 10 ^ fp.length))
    else none
  | _ => none

/-- Models `vertexStream >> vertex >> x >> y >> z` on a vertex line: the
first token is the keyword, the next three are parsed as numbers.  On a
failed extraction C++ (since C++11) stores 0 in the first failing value
and leaves the remaining ones indeterminate; the model uses 0 for every
failed read.  No claim depends on these coordinate values. -/
def parseVertexLine (line : String) : Point3D :=
  ⟨(parseRatToken ((tokens line).getD 1 "")).getD 0,
   (parseRatToken ((tokens line).getD 2 "")).getD 0,
   (parseRatToken ((tokens line).getD 3 "")).getD 0⟩

/-- Split a character list at every newline. -/
def splitLinesAux : List Char → List Char → List String
  | [], cur => [String.mk cur.reverse]
  | c :: cs, cur =>
    if c = '\n' then String.mk cur.reverse :: splitLinesAux cs []
    else splitLinesAux cs (c :: cur)

/-- The lines `std::getline` delivers: split on the newline character,
with no final empty line when the content ends in a newline. -/
def cppLines (s : String) : List String :=
  let parts := splitLinesAux s.toList []
  if parts.getLast? = some "" then parts.dropLast else parts

/-- The `while (std::getline(...))` loop of `STLParser::parseASCII`: a
line whose first token is `facet` starts a block; the next line ("outer
loop") is skipped, three vertex lines are read, two closing lines are
skipped, and a triangle is pushed — with no validation of any of those
six lines.  A `getline` past end-of-input yields the empty string, which
`List.getD` supplies. -/
def parseASCIIAux : List String → List Triangle
  | [] => []
  | line :: rest =>
    if (tokens line).headD "" = "facet" then
      Triangle.mk (parseVertexLine (rest.getD 1 ""))
          (parseVertexLine (rest.getD 2 ""))
          (parseVertexLine (rest.getD 3 "")) ::
        parseASCIIAux (rest.drop 6)
    else parseASCIIAux rest
termination_by l => l.length
decreasing_by
  · simp only [List.length_drop, List.length_cons]; omega
  · simp only [List.length_cons]; omega

/-- `STLParser::parseASCII`: skip the header line, run the facet loop,
succeed iff any triangle was produced (no error message is set). -/
def parseASCII (content : String) : ParseResult :=
  ⟨!(parseASCIIAux ((cppLines content).drop 1)).isEmpty, "",
    parseASCIIAux ((cppLines content).drop 1)⟩

/-- Substring search over character lists (`std::string::find`). -/
def listContainsSub (pat : List Char) : List Char → Bool
  | [] => pat.isEmpty
  | c :: cs => pat.isPrefixOf (c :: cs) || listContainsSub pat cs

/-- `content.find(pat) != npos`. -/
def containsSubstr (s pat : String) : Bool :=
  listContainsSub pat.toList s.toList

/-- `STLParser::isASCII`: the lower-cased content contains both "solid"
and "facet". -/
def isASCII (content : String) : Bool :=
  listContainsSub "solid".toList (content.toList.map Char.toLower) &&
    listContainsSub "facet".toList (content.toList.map Char.toLower)

/-- `STLParser::loadFile` once the file bytes are in memory: dispatch on
`isASCII`; the binary branch applies `parseBinary` to the byte values. -/
def loadFileContent (content : String) : Bool :=
  if isASCII content then (parseASCII content).ok
  else (parseBinary (content.toList.map Char.toNat)).ok

/-- A textual STL whose single facet block is malformed: the vertex line
has non-numeric coordinates and only one vertex line is present. -/
def malformedSTL : String :=
  "solid part\nfacet normal 0 0 0\nouter loop\nvertex a b c\nendloop\nendfacet\nendsolid part\n"

/-- C6 counterexample: `malformedSTL` contains a malformed facet block,
yet `loadFile` succeeds, fabricating one triangle whose failed reads
yield zero coordinates — the malformed block neither fails the load nor
is skipped. -/
theorem parseASCII_malformed_block_accepted :
    isASCII malformedSTL = true ∧
      (parseASCII malformedSTL).triangles =
        [⟨⟨0, 0, 0⟩, ⟨0, 0, 0⟩, ⟨0, 0, 0⟩⟩] ∧
      loadFileContent malformedSTL = true := by
  have hlines : (cppLines malformedSTL).drop 1 =
      ["facet normal 0 0 0", "outer loop", "vertex a b c",
        "endloop", "endfacet", "endsolid part"] := by decide
  have haux : parseASCIIAux ((cppLines malformedSTL).drop 1) =
      [⟨⟨0, 0, 0⟩, ⟨0, 0, 0⟩, ⟨0, 0, 0⟩⟩] := by
    rw [hlines, parseASCIIAux, if_pos (by decide)]
    rw [show (["outer loop", "vertex a b c", "endloop", "endfacet",
        "endsolid part"] : List String).drop 6 = [] by decide]
    rw [parseASCIIAux]
    decide
  exact ⟨by decide, by rw [show (parseASCII malformedSTL).triangles =
    parseASCIIAux ((cppLines malformedSTL).drop 1) from rfl, haux], by
      unfold loadFileContent
      rw [if_pos (by decide)]
      show (!(parseASCIIAux ((cppLines malformedSTL).drop 1)).isEmpty) = true
      rw [haux]
      rfl⟩

/-- The facet loop produces a triangle exactly when some line's first
token is `facet`. -/
theorem parseASCIIAux_ne_nil_iff : ∀ ls : List String,
    (parseASCIIAux ls ≠ [] ↔ ∃ l ∈ ls, (tokens l).headD "" = "facet") := by
  intro ls
  induction ls with
  | nil => simp [parseASCIIAux]
  | cons line rest ih =>
    by_cases h : (tokens line).headD "" = "facet"
    · rw [parseASCIIAux, if_pos h]
      exact iff_of_true (List.cons_ne_nil _ _) ⟨line, by simp, h⟩
    · rw [parseASCIIAux, if_neg h, ih]
      constructor
      · rintro ⟨l, hl, hfacet⟩
        exact ⟨l, by simp [hl], hfacet⟩
      · rintro ⟨l, hl, hfacet⟩
        rcases List.mem_cons.mp hl with heq | hmem
        · exact absurd (heq ▸ hfacet) h
        · exact ⟨l, hmem, hfacet⟩

/-- C6 amended: for a textual input (one passing the ASCII sniff),
loading succeeds exactly when some line after the header has `facet` as
its first token.  Malformed blocks do not fail the load: the parser
consumes six lines after each facet line without validating them and
substitutes 0 for unparsable coordinates, so the load fails only when no
facet-token line exists at all. -/
theorem loadFile_succeeds_iff_facet_line (content : String)
    (h : isASCII content = true) :
    loadFileContent content = true ↔
      ∃ l ∈ (cppLines content).drop 1, (tokens l).headD "" = "facet" := by
  unfold loadFileContent
  rw [if_pos h]
  unfold parseASCII
  rw [← parseASCIIAux_ne_nil_iff]
  simp

theorem loadFile_succeeds_iff_facet_line_witness :
    loadFileContent malformedSTL = true ↔
      ∃ l ∈ (cppLines malformedSTL).drop 1, (tokens l).headD "" = "facet" :=
  loadFile_succeeds_iff_facet_line malformedSTL (by decide)

/-! ### Streaming STL processing (memory_manager.cpp) -/

/-- The constructor's ASCII triangle counter:
`while ((pos = buffer.find("facet", pos)) != npos) { facetCount++; pos += 5; }`.
Counts occurrences of the five-character pattern "facet", resuming five
characters after each match (the inner match is `drop 4` of the tail,
written structurally; a successful prefix match guarantees at least four
remaining characters). -/
def countFacetOccurrencesAux : List Char → ℕ
  | [] => 0
  | c :: cs =>
    if "facet".toList.isPrefixOf (c :: cs) then
      1 + (match cs with
        | _ :: _ :: _ :: _ :: cs4 => countFacetOccurrencesAux cs4
        | _ => 0)
    else countFacetOccurrencesAux cs

/-- `totalTriangles_` as computed for an ASCII file. -/
def countFacetOccurrences (content : String) : ℕ :=
  countFacetOccurrencesAux content.toList

/-- The mutable state of `STLStreamProcessor` on the ASCII path: the
remaining lines of the file, the up-front total, the processed count, and
the chunk size (default `1024 * 1024`). -/
structure StreamState where
  lines : List String
  totalTriangles : ℕ
  processedTriangles : ℕ
  chunkSize : ℕ
deriving DecidableEq, Repr

/-- The ASCII branch of the `STLStreamProcessor` constructor: scan the
whole buffer for "facet" occurrences as the total, then rewind to the
start.  (The binary branch is not modelled; the claims under proof
concern the ASCII path.) -/
def mkAsciiStream (content : String) (chunkSize : ℕ) : StreamState :=
  { lines := cppLines content
    totalTriangles := countFacetOccurrences content
    processedTriangles := 0
    chunkSize := chunkSize }

/-- `STLStreamProcessor::hasMoreTriangles`. -/
def hasMoreTriangles (st : StreamState) : Bool :=
  st.processedTriangles < st.totalTriangles

/-- `line.find("facet") != std::string::npos` in `readASCIIChunk`. -/
def lineHasFacet (l : String) : Bool := containsSubstr l "facet"

/-- The `for` loop of `readASCIIChunk`: one `getline` per iteration, at
most `trianglesToRead` iterations, stopping early when `getline` fails;
a line containing "facet" consumes the whole seven-line block and yields
a triangle.  (`hasMoreTriangles()` is constant during a chunk because
`processedTriangles_` is only updated when `getNextChunk` returns, so it
does not appear in the loop condition here.) -/
def readChunkAux : ℕ → List String → List Triangle × List String
  | 0, ls => ([], ls)
  | _ + 1, [] => ([], [])
  | n + 1, line :: rest =>
    if lineHasFacet line then
      let r := readChunkAux n (rest.drop 6)
      (⟨parseVertexLine (rest.getD 1 ""), parseVertexLine (rest.getD 2 ""),
        parseVertexLine (rest.getD 3 "")⟩ :: r.1, r.2)
    else readChunkAux n rest

/-- `STLStreamProcessor::getNextChunk` (ASCII): read up to
`min(chunkSize_ / 1000, totalTriangles_ - processedTriangles_)` lines'
worth of facet blocks and add the delivered count to
`processedTriangles_`. -/
def getNextChunk (st : StreamState) : List Triangle × StreamState :=
  if !hasMoreTriangles st then ([], st)
  else
    let r := readChunkAux
      (Min.min (st.chunkSize / 1000) (st.totalTriangles - st.processedTriangles)) st.lines
    (r.1, { st with
      lines := r.2
      processedTriangles := st.processedTriangles + r.1.length })

/-- The `while (streamProcessor->hasMoreTriangles())` loop of
`MemoryEfficientSTLParser::processSTLFile`: `memEx k` models
`isMemoryLimitExceeded()` at the k-th iteration (checked after each
chunk; an exceeded ceiling returns `false`); `fuel` bounds how many
iterations are observed, and `none` means the loop is still running after
`fuel` iterations. -/
def processChunksLoop : ℕ → StreamState → (ℕ → Bool) → ℕ → Option Bool
  | 0, _, _, _ => none
  | fuel + 1, st, memEx, k =>
    if hasMoreTriangles st then
      if memEx k then some false
      else processChunksLoop fuel (getNextChunk st).2 memEx (k + 1)
    else some true

/-- `MemoryEfficientSTLParser::processSTLFile`: a throwing constructor
(`Except.error`, e.g. an unopenable file) is caught and returns `false`;
otherwise the chunk loop runs.  The consumer callback only observes
chunks and cannot influence control flow, so it is not modelled. -/
def processSTLFile : Except String StreamState → (ℕ → Bool) → ℕ → Option Bool
  | Except.error _, _, _ => some false
  | Except.ok st, memEx, fuel => processChunksLoop fuel st memEx 0

/-- A well-formed single-triangle ASCII STL file. -/
def asciiOneTriangle : String :=
  "solid test\nfacet normal 0 0 1\nouter loop\nvertex 0 0 0\nvertex 1 0 0\nvertex 0 1 0\nendloop\nendfacet\nendsolid test\n"

/-- The state the stream reaches after both chunks of
`asciiOneTriangle`: input exhausted, 1 of "2" triangles processed. -/
def stuckState : StreamState := ⟨[], 2, 1, 1048576⟩

theorem stuck_loop_none :
    ∀ fuel k, processChunksLoop fuel stuckState (fun _ => false) k = none := by
  intro fuel
  induction fuel with
  | zero => intro k; rfl
  | succ fuel ih =>
    intro k
    rw [processChunksLoop, if_pos (by decide),
      show (getNextChunk stuckState).2 = stuckState from by decide]
    exact ih (k + 1)

theorem loop_none_from_st1 :
    ∀ fuel k,
      processChunksLoop fuel ⟨["endsolid test"], 2, 1, 1048576⟩ (fun _ => false) k = none := by
  intro fuel k
  cases fuel with
  | zero => rfl
  | succ fuel =>
    rw [processChunksLoop, if_pos (by decide),
      show (getNextChunk ⟨["endsolid test"], 2, 1, 1048576⟩).2 = stuckState from by decide]
    exact stuck_loop_none fuel (k + 1)

/-- C2 refuted on the failing input `asciiOneTriangle` (code_bug): the
facet-marker scan counts "facet" inside "endfacet" as well, so the
up-front total is 2 for a one-facet file; only 1 triangle is ever
delivered (the first chunk yields it, the second consumes the rest of the
input and yields none); `hasMoreTriangles` therefore never becomes false,
and with the memory ceiling never exceeded the `processSTLFile` loop runs
forever (`none` for every fuel bound). -/
theorem ascii_stream_count_mismatch_and_divergence :
    countFacetOccurrences asciiOneTriangle = 2 ∧
    (getNextChunk (mkAsciiStream asciiOneTriangle 1048576)).1.length = 1 ∧
    (getNextChunk (mkAsciiStream asciiOneTriangle 1048576)).2.processedTriangles = 1 ∧
    (getNextChunk ((getNextChunk (mkAsciiStream asciiOneTriangle 1048576)).2)).1.length = 0 ∧
    (getNextChunk ((getNextChunk (mkAsciiStream asciiOneTriangle 1048576)).2)).2 =
      stuckState ∧
    hasMoreTriangles stuckState = true ∧
    (∀ fuel : ℕ,
      processSTLFile (Except.ok (mkAsciiStream asciiOneTriangle 1048576))
        (fun _ => false) fuel = none) := by
  refine ⟨by decide, by decide, by decide, by decide, by decide, by decide, ?_⟩
  intro fuel
  show processChunksLoop fuel (mkAsciiStream asciiOneTriangle 1048576) (fun _ => false) 0 = none
  cases fuel with
  | zero => rfl
  | succ fuel =>
    rw [processChunksLoop, if_pos (by decide),
      show (getNextChunk (mkAsciiStream asciiOneTriangle 1048576)).2 =
        ⟨["endsolid test"], 2, 1, 1048576⟩ from by decide]
    exact loop_none_from_st1 fuel 1

/-- C5 counterexample: at the `bool` interface the memory-ceiling stop is
the same value as a thrown parse/file error — both runs of
`processSTLFile` return `false`, so the caller cannot distinguish
success-with-partial-data from failure. -/
theorem memory_stop_same_as_error :
    processSTLFile (Except.ok (mkAsciiStream asciiOneTriangle 1048576))
        (fun _ => true) 5 = some false ∧
      processSTLFile (Except.error "Cannot open STL file: missing.stl")
        (fun _ => false) 5 = some false := by
  exact ⟨by decide, rfl⟩

/-- C5 amended: when the ceiling is already exceeded at the first chunk
boundary the reader does stop, but it signals this by returning `false` —
the same return value every parse/file error produces — so the stop
condition is distinguishable only in the stderr text, not at the
interface. -/
theorem memory_stop_returns_false :
    (∀ (st : StreamState) (memEx : ℕ → Bool) (fuel : ℕ),
      hasMoreTriangles st = true → memEx 0 = true → 0 < fuel →
      processSTLFile (Except.ok st) memEx fuel = some false) ∧
    (∀ (msg : String) (memEx : ℕ → Bool) (fuel : ℕ),
      processSTLFile (Except.error msg) memEx fuel = some false) := by
  constructor
  · intro st memEx fuel hmore hmem hf
    cases fuel with
    | zero => omega
    | succ fuel =>
      show processChunksLoop (fuel + 1) st memEx 0 = some false
      rw [processChunksLoop, if_pos hmore, hmem]
      rfl
  · intro msg memEx fuel
    rfl

theorem memory_stop_returns_false_witness :
    processSTLFile (Except.ok (mkAsciiStream asciiOneTriangle 1048576))
      (fun _ => true) 3 = some false :=
  memory_stop_returns_false.1 (mkAsciiStream asciiOneTriangle 1048576)
    (fun _ => true) 3 (by decide) rfl (by decide)

end StlToNec
